import Mathlib

/-!
Verification development for the VAP MCP proxy (src/mcp/vap_mcp_proxy.py).

The proxy is a JSON-RPC dispatcher: it decodes JSON-RPC messages, routes the
method to a fixed handler table, special-cases three tools of the tools/call
method (generate_video, estimate_video_cost, get_task), forwards everything
else to a remote HTTP API, and re-frames results as JSON-RPC envelopes.

Shallow embedding conventions:
  * `Json` models a decoded Python value (the result of json.loads).  JSON
    integers are modelled by `Json.num : Int`; the fixed-point currency
    amounts of the cost tables (Python floats such as 2.40) are modelled by
    `Json.dec t`, the value t/10 in tenths, which is how every float in this
    program is written (one decimal digit).
  * Python exceptions are modelled by `Except String`: a raised exception is
    `Except.error msg`.  Attribute access `d.get(k)` on a non-dict raises, so
    the corresponding operations return `Except`.
  * The remote HTTP world is an `Env : RemoteCall → Except String Json`:
    `Except.ok body` is a 2xx response with decoded JSON body, and
    `Except.error msg` is any transport failure / non-2xx status / body
    decode failure, msg being the error text the Python code would derive
    from the exception (including the detail-unwrapping of make_v3_request,
    which depends only on the exception object and is therefore part of the
    environment).
  * Each handler returns, besides its result, the list of remote calls it
    performed, so that claims about "no remote call attempted" and about the
    payload sent downstream are statable.  On the (caught) exception paths
    the trace is not observable and is dropped.
-/

inductive Json where
  | null : Json
  | bool (b : Bool) : Json
  | num (n : Int) : Json
  | dec (tenths : Int) : Json
  | str (s : String) : Json
  | arr (elems : List Json) : Json
  | obj (fields : List (String × Json)) : Json

/-- First-match lookup in a decoded JSON object (Python dicts obtained from
json.loads have unique keys, so first-match equals dict lookup). -/
def lookupField : List (String × Json) → String → Option Json
  | [], _ => none
  | (k, v) :: rest, key => if k = key then some v else lookupField rest key

/-- Python `d.get(key, default)` on a dict known to be a dict. -/
def getField (kvs : List (String × Json)) (k : String) (d : Json) : Json :=
  (lookupField kvs k).getD d

/-- Dict update `d[k] = v` keeping the original key position (used only to
state substitution properties of messages). -/
def setField : List (String × Json) → String → Json → List (String × Json)
  | [], k, v => [(k, v)]
  | (k0, v0) :: rest, k, v =>
      if k0 = k then (k, v) :: rest else (k0, v0) :: setField rest k v

/-- Python truthiness of a decoded JSON value. -/
def Json.truthy : Json → Bool
  | .null => false
  | .bool b => b
  | .num n => n != 0
  | .dec t => t != 0
  | .str s => s != ""
  | .arr xs => !xs.isEmpty
  | .obj kvs => !kvs.isEmpty

/-- Python `x == s` for a string literal s. -/
def Json.eqStr : Json → String → Bool
  | .str s, t => s == t
  | _, _ => false

/-- Python `x == n` for an int literal n (True == 1, 4.0 == 4). -/
def Json.eqNum : Json → Int → Bool
  | .num m, n => m == n
  | .bool b, n => (if b then (1 : Int) else 0) == n
  | .dec t, n => t == n * 10
  | _, _ => false

def Json.isNull : Json → Bool
  | .null => true
  | _ => false

def Json.isStr : Json → Bool
  | .str _ => true
  | _ => false

def Json.isObj : Json → Bool
  | .obj _ => true
  | _ => false

/-- A value Python can hash (usable as a dict-lookup key without raising). -/
def Json.hashableKey : Json → Bool
  | .arr _ => false
  | .obj _ => false
  | _ => true

/-- Python `a or b`. -/
def pyOr (a b : Json) : Json := if a.truthy then a else b

/-- Rendering of a float with one decimal digit, as Python str() does
(str(4.8) = "4.8"). Cost amounts are nonnegative. -/
def decStr (t : Int) : String :=
  toString (t / 10) ++ "." ++ toString (t % 10).natAbs

mutual

/-- Python repr() of a decoded JSON value (element rendering inside
containers).  String escaping inside repr is not modelled beyond quoting. -/
def pyRepr : Json → String
  | .null => "None"
  | .bool b => if b then "True" else "False"
  | .num n => toString n
  | .dec t => decStr t
  | .str s => "'" ++ s ++ "'"
  | .arr xs => "[" ++ pyReprList xs ++ "]"
  | .obj kvs => "\x7b" ++ pyReprFields kvs ++ "\x7d"

def pyReprList : List Json → String
  | [] => ""
  | [x] => pyRepr x
  | x :: xs => pyRepr x ++ ", " ++ pyReprList xs

def pyReprFields : List (String × Json) → String
  | [] => ""
  | [(k, v)] => "'" ++ k ++ "': " ++ pyRepr v
  | (k, v) :: kvs => "'" ++ k ++ "': " ++ pyRepr v ++ ", " ++ pyReprFields kvs

end

/-- Python str() of a decoded JSON value, as used by f-string interpolation. -/
def pyStr : Json → String
  | .str s => s
  | j => pyRepr j

def charsPrefixOf : List Char → List Char → Bool
  | [], _ => true
  | _ :: _, [] => false
  | a :: as, b :: bs => a == b && charsPrefixOf as bs

def charsContains : List Char → List Char → Bool
  | [], pat => pat.isEmpty
  | c :: rest, pat => charsPrefixOf pat (c :: rest) || charsContains rest pat

/-- Python substring test `pat in s` for strings. -/
def strContains (s pat : String) : Bool := charsContains s.toList pat.toList

/-- Python `d.get(key, default)` as an operation that raises (AttributeError)
on a non-dict receiver. -/
def Json.pGet : Json → String → Json → Except String Json
  | .obj kvs, k, d => .ok (getField kvs k d)
  | _, _, _ => .error "AttributeError"

/-- Python `d.get(key)` (default None). -/
def Json.pGetN (j : Json) (k : String) : Except String Json := j.pGet k .null

/-- Python `key in x`: key membership for dicts, element membership for
lists, substring test for strings, TypeError otherwise. -/
def Json.containsPy : Json → String → Except String Bool
  | .obj kvs, k => .ok (lookupField kvs k).isSome
  | .arr xs, k => .ok (xs.any fun x => x.eqStr k)
  | .str t, k => .ok (strContains t k)
  | _, _ => .error "TypeError"

/-- Python subscript `x[key]` with a string key. -/
def Json.index : Json → String → Except String Json
  | .obj kvs, k =>
      match lookupField kvs k with
      | some v => .ok v
      | none => .error "KeyError"
  | _, _ => .error "TypeError"

def Json.hasKeyB : Json → String → Bool
  | .obj kvs, k => (lookupField kvs k).isSome
  | _, _ => false

/-!  The remote HTTP world. -/

inductive RemoteCall where
  | postMcp (endpoint : String) (payload : Json) : RemoteCall
  | postV3 (endpoint : String) (payload : Json) : RemoteCall
  | getV3 (endpoint : String) : RemoteCall

def Env : Type := RemoteCall → Except String Json

/-- make_request: POST to the tool-protocol base; never raises, a failing
call yields the sentinel `\x7b"error": msg\x7d` dict. -/
def make_request (env : Env) (endpoint : String) (payload : Json) :
    Json × List RemoteCall :=
  match env (RemoteCall.postMcp endpoint payload) with
  | .ok body => (body, [RemoteCall.postMcp endpoint payload])
  | .error e => (Json.obj [("error", Json.str e)], [RemoteCall.postMcp endpoint payload])

/-- make_v3_request: POST to the task/billing base; same sentinel-error
contract (the D#509 detail unwrapping is part of the environment's message). -/
def make_v3_request (env : Env) (endpoint : String) (payload : Json) :
    Json × List RemoteCall :=
  match env (RemoteCall.postV3 endpoint payload) with
  | .ok body => (body, [RemoteCall.postV3 endpoint payload])
  | .error e => (Json.obj [("error", Json.str e)], [RemoteCall.postV3 endpoint payload])

/-- make_v3_get_request: GET to the task/billing base. -/
def make_v3_get_request (env : Env) (endpoint : String) :
    Json × List RemoteCall :=
  match env (RemoteCall.getV3 endpoint) with
  | .ok body => (body, [RemoteCall.getV3 endpoint])
  | .error e => (Json.obj [("error", Json.str e)], [RemoteCall.getV3 endpoint])

/-!  Cost tables (module-level constants of the proxy). -/

def video_costs_with_audio : List (Int × Json) :=
  [(4, Json.dec 24), (6, Json.dec 36), (8, Json.dec 48)]

def video_costs_no_audio : List (Int × Json) :=
  [(4, Json.dec 12), (6, Json.dec 18), (8, Json.dec 24)]

def lookupInt : List (Int × Json) → Int → Option Json
  | [], _ => none
  | (k, v) :: rest, n => if k = n then some v else lookupInt rest n

/-- Python `cost_table.get(duration, default)` where the table has int keys:
hashable non-matching keys give the default, unhashable keys raise. -/
def costLookup (table : List (Int × Json)) (key dflt : Json) : Except String Json :=
  match key with
  | .num n => .ok ((lookupInt table n).getD dflt)
  | .bool b => .ok ((lookupInt table (if b then 1 else 0)).getD dflt)
  | .dec t => .ok (if t % 10 = 0 then (lookupInt table (t / 10)).getD dflt else dflt)
  | .str _ => .ok dflt
  | .null => .ok dflt
  | .arr _ => .error "TypeError"
  | .obj _ => .error "TypeError"

/-!  Tool-result shapes. -/

def errorResult (t : String) : Json :=
  Json.obj [("isError", Json.bool true),
            ("content", Json.arr [Json.obj [("type", Json.str "text"), ("text", Json.str t)]])]

def textResult (t : String) : Json :=
  Json.obj [("content", Json.arr [Json.obj [("type", Json.str "text"), ("text", Json.str t)]])]

/-!  Tool normalizers (the three special-cased tools of tools/call). -/

/-- Coercion of `duration` (lines 241-242 / 299-300 of the proxy):
`if duration not in (4, 6, 8): duration = 8`. -/
def coerceDuration (d : Json) : Json :=
  if d.eqNum 4 || d.eqNum 6 || d.eqNum 8 then d else Json.num 8

/-- Coercion of `aspect_ratio` (lines 245-246):
`if aspect_ratio not in ("16:9", "9:16"): aspect_ratio = "16:9"`. -/
def coerceAspect (a : Json) : Json :=
  if a.eqStr "16:9" || a.eqStr "9:16" then a else Json.str "16:9"

/-- Coercion of `resolution` (lines 249-250):
`if resolution not in ("720p", "1080p"): resolution = "720p"`. -/
def coerceRes (r : Json) : Json :=
  if r.eqStr "720p" || r.eqStr "1080p" then r else Json.str "720p"

/-- The `params` mapping _handle_generate_video builds for the V3 task
request (lines 255-263): the coerced values, plus negative_prompt only when
truthy. -/
def genVideoParams (akvs : List (String × Json)) : List (String × Json) :=
  let base := [("prompt", getField akvs "prompt" (Json.str "")),
               ("duration", coerceDuration (getField akvs "duration" (Json.num 8))),
               ("aspect_ratio", coerceAspect (getField akvs "aspect_ratio" (Json.str "16:9"))),
               ("generate_audio", getField akvs "generate_audio" (Json.bool true)),
               ("resolution", coerceRes (getField akvs "resolution" (Json.str "720p")))]
  if (getField akvs "negative_prompt" (Json.str "")).truthy then
    base ++ [("negative_prompt", getField akvs "negative_prompt" (Json.str ""))]
  else base

/-- _handle_generate_video (lines 221-286). -/
def handle_generate_video (env : Env) (arguments : Json) :
    Except String (Json × List RemoteCall) :=
  match arguments with
  | .obj akvs =>
    let prompt := getField akvs "prompt" (Json.str "")
    let generate_audio := getField akvs "generate_audio" (Json.bool true)
    if !prompt.truthy then
      .ok (errorResult "Error: prompt is required", [])
    else
      let duration := coerceDuration (getField akvs "duration" (Json.num 8))
      let aspect_ratio := coerceAspect (getField akvs "aspect_ratio" (Json.str "16:9"))
      let resolution := coerceRes (getField akvs "resolution" (Json.str "720p"))
      let (response, calls) := make_v3_request env "/v3/tasks"
        (Json.obj [("type", Json.str "video"), ("params", Json.obj (genVideoParams akvs))])
      (do
        if (← response.containsPy "error") then
          let e ← response.index "error"
          return (errorResult ("Error: " ++ pyStr e), calls)
        else
          let task_id ← response.pGet "task_id" (Json.str "unknown")
          let cost_table := if generate_audio.truthy then video_costs_with_audio
                            else video_costs_no_audio
          let dflt ← costLookup cost_table duration (Json.dec 48)
          let estimated_cost ← response.pGet "estimated_cost" dflt
          return (textResult ("Video generation task created (Veo 3.1)!\n\nTask ID: "
            ++ pyStr task_id ++ "\nDuration: " ++ pyStr duration
            ++ " seconds\nAspect Ratio: " ++ pyStr aspect_ratio
            ++ "\nResolution: " ++ pyStr resolution
            ++ "\nAudio: " ++ (if generate_audio.truthy then "Yes" else "No")
            ++ "\nEstimated Cost: $" ++ pyStr estimated_cost
            ++ "\n\nUse get_task with this task_id to check status and get the video URL when complete."),
            calls))
  | _ => .error "AttributeError"

/-- The canned text _handle_estimate_video_cost always returns (line 308). -/
def estimateFixedText : String :=
  "Video Generation Cost: $1.96 USD (fixed price)\n\nProvider: Veo 3.1\nRequires: Tier 2+"

/-- _handle_estimate_video_cost (lines 289-310): local computation only, no
remote call; the computed cost is not used by the returned text. -/
def handle_estimate_video_cost (arguments : Json) :
    Except String (Json × List RemoteCall) :=
  match arguments with
  | .obj akvs =>
    let duration := coerceDuration (getField akvs "duration" (Json.num 8))
    let generate_audio := getField akvs "generate_audio" (Json.bool true)
    let cost_table := if generate_audio.truthy then video_costs_with_audio
                      else video_costs_no_audio
    (do
      let _cost ← costLookup cost_table duration (Json.dec 48)
      return (textResult estimateFixedText, []))
  | _ => .error "AttributeError"

/-- _handle_get_task (lines 313-385). -/
def handle_get_task (env : Env) (arguments : Json) :
    Except String (Json × List RemoteCall) :=
  match arguments with
  | .obj akvs =>
    let task_id := getField akvs "task_id" (Json.str "")
    if !task_id.truthy then
      .ok (errorResult "Error: task_id is required", [])
    else
      let (response, calls) := make_v3_get_request env ("/v3/tasks/" ++ pyStr task_id)
      (do
        if (← response.containsPy "error") then
          let e ← response.index "error"
          return (errorResult ("Error: " ++ pyStr e), calls)
        else
          let status ← response.pGet "status" (Json.str "unknown")
          let task_type ← response.pGet "type" (Json.str "unknown")
          let estimated_cost ← response.pGet "estimated_cost" (Json.str "N/A")
          let actual_cost ← response.pGet "actual_cost" (Json.str "N/A")
          let error_message ← response.pGetN "error_message"
          let result0 ← response.pGet "result" (Json.obj [])
          let result := if result0.truthy then result0 else Json.obj []
          let v1 ← result.pGetN "video_url"
          let v2 ← result.pGetN "output_url"
          let video_url := pyOr v1 v2
          let i1 ← result.pGetN "image_url"
          let image_url0 := pyOr i1 v2
          let items ← result.pGet "items" (Json.arr [])
          let au_iu ← (match items with
            | Json.arr (first :: _) => do
                let au ← first.pGetN "audio_url"
                let iu ← if image_url0.truthy then pure image_url0
                         else first.pGetN "image_url"
                pure (au, iu)
            | _ => pure (Json.null, image_url0))
          let audio_url := au_iu.1
          let image_url := au_iu.2
          let lines1 := ["Task: " ++ pyStr task_id, "Type: " ++ pyStr task_type,
                         "Status: " ++ pyStr status,
                         "Estimated Cost: $" ++ pyStr estimated_cost]
          let lines2 := if actual_cost.truthy && !(actual_cost.eqStr "N/A") then
                          lines1 ++ ["Actual Cost: $" ++ pyStr actual_cost]
                        else lines1
          let lines3 :=
            if status.eqStr "completed" then
              (if audio_url.truthy then lines2 ++ ["\n🎵 Audio URL: " ++ pyStr audio_url]
               else if video_url.truthy then lines2 ++ ["\n🎬 Video URL: " ++ pyStr video_url]
               else if image_url.truthy then lines2 ++ ["\n🖼️ Image URL: " ++ pyStr image_url]
               else lines2)
            else if status.eqStr "failed" && error_message.truthy then
              lines2 ++ ["\n❌ Error: " ++ pyStr error_message]
            else if status.eqStr "pending" || status.eqStr "queued"
                    || status.eqStr "executing" then
              lines2 ++ ["\n⏳ Task is still " ++ pyStr status ++ ". Check again shortly."]
            else lines2
          return (textResult (String.intercalate "\n" lines3), calls))
  | _ => .error "AttributeError"

/-!  Generic method handlers. -/

/-- handle_initialize (lines 175-182). -/
def handle_initialize (env : Env) (params : Json) :
    Except String (Json × List RemoteCall) :=
  match params with
  | .obj pkvs =>
      .ok (make_request env "/initialize" (Json.obj
        [("protocolVersion", getField pkvs "protocolVersion" Json.null),
         ("capabilities", getField pkvs "capabilities" (Json.obj [])),
         ("clientInfo", getField pkvs "clientInfo" (Json.obj []))]))
  | _ => .error "AttributeError"

/-- handle_tools_list (lines 185-188); the params argument is not touched. -/
def handle_tools_list (env : Env) (_params : Json) :
    Except String (Json × List RemoteCall) :=
  .ok (make_request env "/tools/list" (Json.obj []))

/-- handle_tools_call (lines 191-218): dispatch to the three special tool
handlers, otherwise forward verbatim. -/
def handle_tools_call (env : Env) (params : Json) :
    Except String (Json × List RemoteCall) :=
  match params with
  | .obj pkvs =>
    let tool_name := getField pkvs "name" (Json.str "")
    let arguments := getField pkvs "arguments" (Json.obj [])
    if tool_name.eqStr "generate_video" then
      handle_generate_video env arguments
    else if tool_name.eqStr "estimate_video_cost" then
      handle_estimate_video_cost arguments
    else if tool_name.eqStr "get_task" then
      handle_get_task env arguments
    else
      .ok (make_request env "/tools/call"
        (Json.obj [("name", tool_name), ("arguments", arguments)]))
  | _ => .error "AttributeError"

/-- handle_resources_list (lines 414-417). -/
def handle_resources_list (env : Env) (_params : Json) :
    Except String (Json × List RemoteCall) :=
  .ok (make_request env "/resources/list" (Json.obj []))

/-- handle_resources_read (lines 420-425). -/
def handle_resources_read (env : Env) (params : Json) :
    Except String (Json × List RemoteCall) :=
  match params with
  | .obj pkvs =>
      .ok (make_request env "/resources/read"
        (Json.obj [("params", Json.obj [("uri", getField pkvs "uri" Json.null)])]))
  | _ => .error "AttributeError"

/-!  JSON-RPC dispatcher. -/

inductive MethodName where
  | initReq : MethodName
  | toolsList : MethodName
  | toolsCall : MethodName
  | resourcesList : MethodName
  | resourcesRead : MethodName

/-- METHOD_HANDLERS (lines 429-435), keyed by method string. -/
def methodTable (s : String) : Option MethodName :=
  if s = "initialize" then some MethodName.initReq
  else if s = "tools/list" then some MethodName.toolsList
  else if s = "tools/call" then some MethodName.toolsCall
  else if s = "resources/list" then some MethodName.resourcesList
  else if s = "resources/read" then some MethodName.resourcesRead
  else none

/-- METHOD_HANDLERS.get(method): dict lookup with an arbitrary decoded value
as key; unhashable keys (list/dict) raise TypeError. -/
def methodLookup : Json → Except String (Option MethodName)
  | .str s => .ok (methodTable s)
  | .arr _ => .error "TypeError"
  | .obj _ => .error "TypeError"
  | _ => .ok none

def runHandler (env : Env) : MethodName → Json → Except String (Json × List RemoteCall)
  | MethodName.initReq, params => handle_initialize env params
  | MethodName.toolsList, params => handle_tools_list env params
  | MethodName.toolsCall, params => handle_tools_call env params
  | MethodName.resourcesList, params => handle_resources_list env params
  | MethodName.resourcesRead, params => handle_resources_read env params

/-- create_response (lines 442-448). -/
def create_response (id result : Json) : Json :=
  Json.obj [("jsonrpc", Json.str "2.0"), ("id", id), ("result", result)]

/-- create_error (lines 451-460). -/
def create_error (id : Json) (code : Int) (message : String) : Json :=
  Json.obj [("jsonrpc", Json.str "2.0"), ("id", id),
            ("error", Json.obj [("code", Json.num code), ("message", Json.str message)])]

/-- Python `method.startswith("notifications/")`: raises AttributeError on a
non-string receiver. -/
def pyStartsCheck (j : Json) (pre : String) : Except String Bool :=
  match j with
  | .str s => .ok (s.startsWith pre)
  | _ => .error "AttributeError"

/-- The `"error" in result and isinstance(result["error"], str)` check of
process_request (line 497), evaluated inside its try block. -/
def resultErrMsg (result : Json) : Except String (Option String) := do
  if (← result.containsPy "error") then
    let e ← result.index "error"
    match e with
    | Json.str msg => return some msg
    | _ => return none
  else
    return none

/-- Lines 493-504 of process_request: invoke the handler inside a try block;
any raised exception becomes a -32000 error envelope, a string-valued
"error" member of the result becomes a -32000 error envelope, anything else
a success envelope. -/
def handlerTry (env : Env) (h : MethodName) (params request_id : Json) :
    Json × List RemoteCall :=
  match runHandler env h params with
  | .error ex => (create_error request_id (-32000) ex, [])
  | .ok (result, calls) =>
    match resultErrMsg result with
    | .error ex => (create_error request_id (-32000) ex, calls)
    | .ok (some msg) => (create_error request_id (-32000) msg, calls)
    | .ok none => (create_response request_id result, calls)

/-- process_request (lines 463-504).  Result `none` means a notification (no
response); `Except.error` is an exception escaping process_request itself
(only possible outside the handler try block). -/
def process_request (env : Env) (request : Json) :
    Except String (Option (Json × List RemoteCall)) :=
  match request with
  | .obj rkvs =>
    let request_id := getField rkvs "id" Json.null
    let method := getField rkvs "method" (Json.str "")
    let params0 := getField rkvs "params" Json.null
    let params := if params0.truthy then params0 else Json.obj []
    if request_id.isNull then
      if method.eqStr "notifications/initialized" then
        .ok none
      else
        (do
          let _ ← pyStartsCheck method "notifications/"
          return none)
    else
      match methodLookup method with
      | .error e => .error e
      | .ok none =>
          .ok (some (create_error request_id (-32601)
                       ("Method not found: " ++ pyStr method), []))
      | .ok (some h) => .ok (some (handlerTry env h params request_id))
  | _ => .error "AttributeError"

/-!  Line (stdio) transport, run_stdio (lines 605-632).  A raw input line is
classified by what json.loads does to it: blank after strip, undecodable, or
decoded to a value. -/

inductive LineInput where
  | blank : LineInput
  | malformed : LineInput
  | parsed (j : Json) : LineInput

/-- Processing of one input line: the list of JSON texts written to stdout
(each written value is modelled by its decoded Json).  `Except.error` is an
exception escaping the loop body (which would kill the read loop). -/
def stdio_step (env : Env) : LineInput → Except String (List Json)
  | LineInput.blank => .ok []
  | LineInput.malformed => .ok [create_error Json.null (-32700) "Parse error"]
  | LineInput.parsed j => do
      match ← process_request env j with
      | none => return []
      | some (resp, _calls) => return [resp]

/-- The whole stdio loop over a finite input: the stream of writes, and
whether the loop died on an uncaught exception (true = crashed, remaining
input unprocessed). -/
def run_stdio (env : Env) : List LineInput → List Json × Bool
  | [] => ([], false)
  | l :: rest =>
    match stdio_step env l with
    | .error _ => ([], true)
    | .ok ws =>
      let r := run_stdio env rest
      (ws ++ r.1, r.2)

/-!  Spec-side description of get_task's summary (for the refinement claims
about _handle_get_task).  These definitions follow the specification's words
(section 4.2, get_task): extraction of a single output URL in priority order
and the per-status trailing line. -/

/-- Spec words: "an `items` sequence whose first element carries
`audio_url`/`image_url`" — the first element of the result's items list,
when items is a nonempty list. -/
def specFirstItem (rkvs : List (String × Json)) : Option Json :=
  match getField rkvs "items" (Json.arr []) with
  | Json.arr (x :: _) => some x
  | _ => none

/-- Spec words: "for music-type results, the first item's `audio_url`". -/
def specAudioUrl (rkvs : List (String × Json)) : Json :=
  match specFirstItem rkvs with
  | some (Json.obj ikvs) => getField ikvs "audio_url" Json.null
  | _ => Json.null

/-- Spec words: "else `video_url` or `output_url`". -/
def specVideoUrl (rkvs : List (String × Json)) : Json :=
  pyOr (getField rkvs "video_url" Json.null) (getField rkvs "output_url" Json.null)

/-- Spec words: "else `image_url`, falling back to the first item's
`image_url` if still absent". -/
def specImageUrl (rkvs : List (String × Json)) : Json :=
  let base := pyOr (getField rkvs "image_url" Json.null) (getField rkvs "output_url" Json.null)
  if base.truthy then base
  else
    match specFirstItem rkvs with
    | some (Json.obj ikvs) => getField ikvs "image_url" Json.null
    | _ => Json.null

/-- Spec words: "a formatted multi-line summary: task id, type, status,
estimated cost, actual cost if present" (present = a real value, not the
"N/A" placeholder and not a falsy placeholder). -/
def specTaskBaseLines (task_id task_type status estimated_cost actual_cost : Json) :
    List String :=
  ["Task: " ++ pyStr task_id, "Type: " ++ pyStr task_type,
   "Status: " ++ pyStr status, "Estimated Cost: $" ++ pyStr estimated_cost]
  ++ (if actual_cost.truthy && !(actual_cost.eqStr "N/A") then
        ["Actual Cost: $" ++ pyStr actual_cost]
      else [])

/-- The trailing line chosen by status: the output-URL line for a completed
task with an available URL (audio preferred over video over image), the
error line for a failed task carrying an error message, the still-working
notice for pending/queued/executing, nothing otherwise. -/
def specTrailingLine (status audio_url video_url image_url error_message : Json) :
    List String :=
  if status.eqStr "completed" then
    (if audio_url.truthy then ["\n🎵 Audio URL: " ++ pyStr audio_url]
     else if video_url.truthy then ["\n🎬 Video URL: " ++ pyStr video_url]
     else if image_url.truthy then ["\n🖼️ Image URL: " ++ pyStr image_url]
     else [])
  else if status.eqStr "failed" && error_message.truthy then
    ["\n❌ Error: " ++ pyStr error_message]
  else if status.eqStr "pending" || status.eqStr "queued" || status.eqStr "executing" then
    ["\n⏳ Task is still " ++ pyStr status ++ ". Check again shortly."]
  else []

/-- The full spec-side summary text for a fetched task document `bkvs` whose
effective result mapping is `rkvs`. -/
def specTaskSummary (task_id : Json) (bkvs rkvs : List (String × Json)) : String :=
  String.intercalate "\n"
    (specTaskBaseLines task_id
        (getField bkvs "type" (Json.str "unknown"))
        (getField bkvs "status" (Json.str "unknown"))
        (getField bkvs "estimated_cost" (Json.str "N/A"))
        (getField bkvs "actual_cost" (Json.str "N/A"))
     ++ specTrailingLine (getField bkvs "status" (Json.str "unknown"))
          (specAudioUrl rkvs) (specVideoUrl rkvs) (specImageUrl rkvs)
          (getField bkvs "error_message" Json.null))

/-!  Concrete environments and message builders used by concrete theorems. -/

/-- A remote API that always answers 200 with an empty JSON object. -/
def envOk0 : Env := fun _ => Except.ok (Json.obj [])

/-- A remote API on which every HTTP call fails (e.g. a 502). -/
def envFail0 : Env := fun _ => Except.error "HTTP 502"

/-- A remote API serving one completed video task document with no result
mapping. -/
def envTaskNoResult : Env := fun _ =>
  Except.ok (Json.obj [("status", Json.str "completed"), ("type", Json.str "video")])

/-- A remote API serving one completed music task whose result carries
items[0].audio_url. -/
def envMusic0 : Env := fun _ =>
  Except.ok (Json.obj
    [("status", Json.str "completed"), ("type", Json.str "music"),
     ("result", Json.obj
        [("items", Json.arr [Json.obj [("audio_url", Json.str "https://x/a.mp3")]])])])

/-- A tools/call JSON-RPC request envelope. -/
def toolsCallReq (idv : Json) (name : String) (akvs : List (String × Json)) : Json :=
  Json.obj [("id", idv), ("method", Json.str "tools/call"),
            ("params", Json.obj [("name", Json.str name), ("arguments", Json.obj akvs)])]

/-!  Helper lemmas. -/

theorem exBind_ok {α β ε : Type} (a : α) (f : α → Except ε β) :
    (Except.ok a >>= f) = f a := rfl

theorem exBind_err {α β ε : Type} (e : ε) (f : α → Except ε β) :
    ((Except.error e : Except ε α) >>= f) = Except.error e := rfl

theorem exPure {α ε : Type} (a : α) : (pure a : Except ε α) = Except.ok a := rfl

theorem lookup_setField_same (kvs : List (String × Json)) (k : String) (v : Json) :
    lookupField (setField kvs k v) k = some v := by
  induction kvs with
  | nil => simp [setField, lookupField]
  | cons hd tl ih =>
      obtain ⟨k0, v0⟩ := hd
      by_cases h : k0 = k
      · simp [setField, h, lookupField]
      · simp [setField, h, lookupField, ih]

theorem lookup_setField_ne (kvs : List (String × Json)) (k k' : String) (v : Json)
    (h : k' ≠ k) : lookupField (setField kvs k v) k' = lookupField kvs k' := by
  induction kvs with
  | nil =>
      simp only [setField, lookupField]
      rw [if_neg (fun hh => h hh.symm)]
  | cons hd tl ih =>
      obtain ⟨k0, v0⟩ := hd
      by_cases h0 : k0 = k
      · subst h0
        simp [setField, lookupField, h, Ne.symm h]
      · by_cases h1 : k0 = k'
        · simp [setField, h0, lookupField, h1, h]
        · simp [setField, h0, lookupField, h1, ih]

theorem methodLookup_ok (m : Json) (h : m.hashableKey = true) :
    ∃ o, methodLookup m = Except.ok o := by
  cases m <;> simp_all [Json.hashableKey, methodLookup]

theorem costLookup_coerce_ok (tbl : List (Int × Json)) (d dflt : Json) :
    ∃ v, costLookup tbl (coerceDuration d) dflt = Except.ok v := by
  unfold coerceDuration
  by_cases h : (d.eqNum 4 || d.eqNum 6 || d.eqNum 8) = true
  · rw [if_pos h]
    cases d with
    | num n => exact ⟨_, rfl⟩
    | dec t =>
        simp [Json.eqNum] at h
        have h10 : t % 10 = 0 := by omega
        exact ⟨(lookupInt tbl (t / 10)).getD dflt, by simp [costLookup, h10]⟩
    | bool b => cases b <;> simp [Json.eqNum] at h
    | null => simp [Json.eqNum] at h
    | str s => simp [Json.eqNum] at h
    | arr xs => simp [Json.eqNum] at h
    | obj kvs => simp [Json.eqNum] at h
  · rw [if_neg h]
    exact ⟨_, rfl⟩

theorem handlerTry_shape (env : Env) (h : MethodName) (params rid : Json) :
    (∃ r cs, handlerTry env h params rid = (create_response rid r, cs)) ∨
    (∃ c m cs, handlerTry env h params rid = (create_error rid c m, cs)) := by
  unfold handlerTry
  split
  · right; exact ⟨_, _, _, rfl⟩
  · split <;> first
      | (left; exact ⟨_, _, rfl⟩)
      | (right; exact ⟨_, _, _, rfl⟩)

theorem create_response_keys (id r : Json) :
    (create_response id r).hasKeyB "result" = true ∧
    (create_response id r).hasKeyB "error" = false := by
  simp [create_response, Json.hasKeyB, lookupField]

theorem create_error_keys (id : Json) (c : Int) (m : String) :
    (create_error id c m).hasKeyB "result" = false ∧
    (create_error id c m).hasKeyB "error" = true := by
  simp [create_error, Json.hasKeyB, lookupField]

/-!  Claim theorems. -/

/-- C4: every estimate_video_cost call, whatever duration and generate_audio
say, performs no remote call and returns a result whose text contains the
literal "$1.96", independent of the cost computed from the tables. -/
theorem c4_estimate_cost_fixed_text :
    ∀ akvs : List (String × Json),
      handle_estimate_video_cost (Json.obj akvs) = Except.ok (textResult estimateFixedText, [])
      ∧ strContains estimateFixedText "$1.96" = true := by
  intro akvs
  refine ⟨?_, by decide⟩
  unfold handle_estimate_video_cost
  obtain ⟨v, hv⟩ := costLookup_coerce_ok
      (if (getField akvs "generate_audio" (Json.bool true)).truthy then video_costs_with_audio
       else video_costs_no_audio)
      (getField akvs "duration" (Json.num 8)) (Json.dec 48)
  simp [hv, exBind_ok, exPure]

/-- C7: a generate_video call whose prompt is empty or absent returns an
error-flagged result whose text names the prompt, and attempts no remote
call. -/
theorem c7_empty_prompt_no_call :
    ∀ (env : Env) (akvs : List (String × Json)),
      lookupField akvs "prompt" = none ∨ lookupField akvs "prompt" = some (Json.str "") →
      handle_generate_video env (Json.obj akvs) =
        Except.ok (errorResult "Error: prompt is required", [])
      ∧ (errorResult "Error: prompt is required").hasKeyB "isError" = true
      ∧ strContains "Error: prompt is required" "prompt" = true := by
  intro env akvs h
  have hp : getField akvs "prompt" (Json.str "") = Json.str "" := by
    rcases h with h | h <;> simp [getField, h]
  refine ⟨?_, by decide, by decide⟩
  unfold handle_generate_video
  simp [hp, Json.truthy]

/-- C7 witness: concrete absent prompt. -/
theorem c7_witness :
    (lookupField ([] : List (String × Json)) "prompt" = none ∨
       lookupField ([] : List (String × Json)) "prompt" = some (Json.str "")) ∧
    (handle_generate_video envOk0 (Json.obj []) =
        Except.ok (errorResult "Error: prompt is required", [])
      ∧ (errorResult "Error: prompt is required").hasKeyB "isError" = true
      ∧ strContains "Error: prompt is required" "prompt" = true) :=
  ⟨Or.inl rfl, c7_empty_prompt_no_call envOk0 [] (Or.inl rfl)⟩

/-- C8: a malformed non-blank line makes the stdio loop write exactly one
parse-error response (id null, code -32700), without terminating the loop:
the remaining lines are processed exactly as they would be alone. -/
theorem c8_malformed_line_parse_error :
    ∀ (env : Env) (rest : List LineInput),
      run_stdio env (LineInput.malformed :: rest) =
        (create_error Json.null (-32700) "Parse error" :: (run_stdio env rest).1,
         (run_stdio env rest).2)
      ∧ stdio_step env LineInput.malformed =
          Except.ok [create_error Json.null (-32700) "Parse error"] := by
  intro env rest
  exact ⟨by simp [run_stdio, stdio_step], rfl⟩

/-- C6: a decoded message without an id field, whose method is a string, is
treated as a notification: the dispatcher returns no response and the stdio
transport writes nothing, whatever the method is. -/
theorem c6_absent_id_no_write :
    ∀ (env : Env) (rkvs : List (String × Json)),
      lookupField rkvs "id" = none →
      (getField rkvs "method" (Json.str "")).isStr = true →
      process_request env (Json.obj rkvs) = Except.ok none
      ∧ stdio_step env (LineInput.parsed (Json.obj rkvs)) = Except.ok [] := by
  intro env rkvs hid hm
  have hid' : getField rkvs "id" Json.null = Json.null := by simp [getField, hid]
  rcases em : getField rkvs "method" (Json.str "") with _ | b | n | t | s | xs | kvs <;>
    rw [em] at hm <;> simp [Json.isStr] at hm
  have h1 : process_request env (Json.obj rkvs) = Except.ok none := by
    unfold process_request
    simp only [hid', em, Json.isNull]
    by_cases hs : (Json.str s).eqStr "notifications/initialized" = true
    · simp [hs]
    · simp [hs, pyStartsCheck, exBind_ok, exPure]
  exact ⟨h1, by simp [stdio_step, h1, exBind_ok, exPure]⟩

/-- C6 witness: a notifications/initialized message without id. -/
theorem c6_witness :
    (lookupField [("method", Json.str "notifications/initialized")] "id" = none) ∧
    ((getField [("method", Json.str "notifications/initialized")] "method"
        (Json.str "")).isStr = true) ∧
    (process_request envOk0 (Json.obj [("method", Json.str "notifications/initialized")])
        = Except.ok none
      ∧ stdio_step envOk0
          (LineInput.parsed (Json.obj [("method", Json.str "notifications/initialized")]))
          = Except.ok []) :=
  ⟨rfl, rfl, c6_absent_id_no_write envOk0 [("method", Json.str "notifications/initialized")] rfl rfl⟩

/-- C2 counterexample: a message whose id is explicitly null is treated as a
notification and produces no response envelope at all, contradicting the
claim that an explicit-null id receives exactly one response. -/
theorem c2_counterexample :
    process_request envOk0 (Json.obj [("id", Json.null), ("method", Json.str "tools/list")])
      = Except.ok none
    ∧ stdio_step envOk0
        (LineInput.parsed (Json.obj [("id", Json.null), ("method", Json.str "tools/list")]))
      = Except.ok [] :=
  ⟨rfl, rfl⟩

/-- C1 counterexample: a generically forwarded tool (generate_image) whose
remote call fails gets a JSON-RPC error envelope (code -32000), not a
flagged tool result, contradicting the claim for generically forwarded
tools. -/
theorem c1_counterexample :
    process_request envFail0 (toolsCallReq (Json.num 1) "generate_image" [])
      = Except.ok (some (create_error (Json.num 1) (-32000) "HTTP 502",
          [RemoteCall.postMcp "/tools/call"
             (Json.obj [("name", Json.str "generate_image"), ("arguments", Json.obj [])])]))
    ∧ (create_error (Json.num 1) (-32000) "HTTP 502").hasKeyB "error" = true
    ∧ (create_error (Json.num 1) (-32000) "HTTP 502").hasKeyB "result" = false := by
  exact ⟨rfl, by decide, by decide⟩

/-- C2 (amended): a decoded message whose id is present and non-null (and
whose method is a hashable value, as every JSON-RPC method string is)
produces exactly one response envelope, containing a result member or an
error member, never both.  (A message with explicit null id is instead
treated as a notification, see the counterexample.) -/
theorem c2_amended :
    ∀ (env : Env) (rkvs : List (String × Json)) (v : Json),
      lookupField rkvs "id" = some v →
      v.isNull = false →
      (getField rkvs "method" (Json.str "")).hashableKey = true →
      ∃ resp calls,
        process_request env (Json.obj rkvs) = Except.ok (some (resp, calls))
        ∧ ((resp.hasKeyB "result" = true ∧ resp.hasKeyB "error" = false)
           ∨ (resp.hasKeyB "result" = false ∧ resp.hasKeyB "error" = true)) := by
  intro env rkvs v hid hnull hhash
  have hid' : getField rkvs "id" Json.null = v := by simp [getField, hid]
  obtain ⟨o, ho⟩ := methodLookup_ok (getField rkvs "method" (Json.str "")) hhash
  cases o with
  | none =>
      refine ⟨create_error v (-32601)
        ("Method not found: " ++ pyStr (getField rkvs "method" (Json.str ""))), [], ?_,
        Or.inr ⟨(create_error_keys _ _ _).1, (create_error_keys _ _ _).2⟩⟩
      unfold process_request
      simp [hid', ho, hnull]
  | some h =>
      rcases handlerTry_shape env h
          (if (getField rkvs "params" Json.null).truthy then getField rkvs "params" Json.null
           else Json.obj []) v with ⟨r, cs, hrc⟩ | ⟨c, m, cs, hrc⟩
      · refine ⟨create_response v r, cs, ?_,
          Or.inl ⟨(create_response_keys _ _).1, (create_response_keys _ _).2⟩⟩
        unfold process_request
        simp [hid', ho, hnull, hrc]
      · refine ⟨create_error v c m, cs, ?_,
          Or.inr ⟨(create_error_keys _ _ _).1, (create_error_keys _ _ _).2⟩⟩
        unfold process_request
        simp [hid', ho, hnull, hrc]

/-- C2 witness: an unknown method with id 7 gets exactly one envelope. -/
theorem c2_witness :
    ∃ resp calls,
      process_request envOk0 (Json.obj [("id", Json.num 7), ("method", Json.str "foo/bar")])
        = Except.ok (some (resp, calls))
      ∧ ((resp.hasKeyB "result" = true ∧ resp.hasKeyB "error" = false)
         ∨ (resp.hasKeyB "result" = false ∧ resp.hasKeyB "error" = true)) :=
  c2_amended envOk0 [("id", Json.num 7), ("method", Json.str "foo/bar")] (Json.num 7)
    rfl rfl rfl

/-- C9: a message whose params member is absent, null or otherwise falsy is
dispatched exactly as the same message with params set to the empty
mapping, and each of the five handlers accepts the empty mapping without
raising. -/
theorem c9_falsy_params_empty_mapping :
    (∀ (env : Env) (rkvs : List (String × Json)),
       (getField rkvs "params" Json.null).truthy = false →
       process_request env (Json.obj rkvs)
         = process_request env (Json.obj (setField rkvs "params" (Json.obj []))))
    ∧ (∀ (env : Env) (h : MethodName),
         ∃ r, runHandler env h (Json.obj []) = Except.ok r) := by
  constructor
  · intro env rkvs hfalsy
    have e1 : getField (setField rkvs "params" (Json.obj [])) "id" Json.null
        = getField rkvs "id" Json.null := by
      simp [getField, lookup_setField_ne rkvs "params" "id" _ (by decide)]
    have e2 : getField (setField rkvs "params" (Json.obj [])) "method" (Json.str "")
        = getField rkvs "method" (Json.str "") := by
      simp [getField, lookup_setField_ne rkvs "params" "method" _ (by decide)]
    have e3 : getField (setField rkvs "params" (Json.obj [])) "params" Json.null
        = Json.obj [] := by
      simp [getField, lookup_setField_same]
    have h4 : (Json.obj []).truthy = false := rfl
    simp only [process_request]
    rw [e1, e2, e3]
    simp [hfalsy, h4]
  · intro env h
    cases h <;> exact ⟨_, rfl⟩

/-- C9 witness: params explicitly null is dispatched like params = empty
mapping. -/
theorem c9_witness :
    process_request envOk0
        (Json.obj [("id", Json.num 1), ("method", Json.str "tools/list"), ("params", Json.null)])
      = process_request envOk0
          (Json.obj (setField [("id", Json.num 1), ("method", Json.str "tools/list"),
            ("params", Json.null)] "params" (Json.obj []))) :=
  c9_falsy_params_empty_mapping.1 envOk0
    [("id", Json.num 1), ("method", Json.str "tools/list"), ("params", Json.null)] rfl

-- The get_task formatting refinement: every successful fetch of a task
-- document formats the spec-side summary, with the effective result mapping
-- rkvs (the result member, or the empty mapping when that member is falsy
-- or absent) and with a first items element that is a mapping (a
-- non-mapping first element would raise).  Shared by the get_task claims.
set_option maxHeartbeats 4000000 in
theorem getTask_formats
    (env : Env) (akvs : List (String × Json)) (tid : Json)
    (bkvs rkvs : List (String × Json))
    (htid : lookupField akvs "task_id" = some tid)
    (htruthy : tid.truthy = true)
    (henv : env (RemoteCall.getV3 ("/v3/tasks/" ++ pyStr tid)) = Except.ok (Json.obj bkvs))
    (herr : lookupField bkvs "error" = none)
    (hres : (if (getField bkvs "result" (Json.obj [])).truthy then getField bkvs "result" (Json.obj [])
             else Json.obj []) = Json.obj rkvs)
    (hitems : ∀ x, specFirstItem rkvs = some x → x.isObj = true) :
    handle_get_task env (Json.obj akvs)
      = Except.ok (textResult (specTaskSummary tid bkvs rkvs),
          [RemoteCall.getV3 ("/v3/tasks/" ++ pyStr tid)]) := by
  have htid' : getField akvs "task_id" (Json.str "") = tid := by simp [getField, htid]
  have hcall : make_v3_get_request env ("/v3/tasks/" ++ pyStr tid)
      = (Json.obj bkvs, [RemoteCall.getV3 ("/v3/tasks/" ++ pyStr tid)]) := by
    simp [make_v3_get_request, henv]
  have herr' : (Json.obj bkvs).containsPy "error" = Except.ok false := by
    simp [Json.containsPy, herr]
  simp only [handle_get_task]
  rw [htid']
  simp only [htruthy, Bool.not_true, Bool.false_eq_true, if_false, hcall, herr',
    Json.pGet, Json.pGetN, exBind_ok, exPure]
  rw [hres]
  simp only [Json.pGet, Json.pGetN, exBind_ok, exPure]
  rcases hi : getField rkvs "items" (Json.arr []) with _ | b | n | t | s | xs | kvs
  case arr =>
    cases xs with
    | nil =>
      by_cases hbase : (pyOr (getField rkvs "image_url" Json.null)
          (getField rkvs "output_url" Json.null)).truthy = true
      · simp only [specTaskSummary, specTaskBaseLines, specTrailingLine, specAudioUrl,
          specVideoUrl, specImageUrl, specFirstItem, hi, hbase, if_true]
        split_ifs <;> simp_all [List.append_assoc, Json.truthy, exBind_ok, exPure]
      · simp only [specTaskSummary, specTaskBaseLines, specTrailingLine, specAudioUrl,
          specVideoUrl, specImageUrl, specFirstItem, hi, hbase, if_false]
        split_ifs <;> simp_all [List.append_assoc, Json.truthy, exBind_ok, exPure]
    | cons first tail =>
      have hfirst : specFirstItem rkvs = some first := by simp [specFirstItem, hi]
      have hobj := hitems first hfirst
      obtain ⟨ikvs, rfl⟩ : ∃ ikvs, first = Json.obj ikvs := by
        cases first <;> first | exact ⟨_, rfl⟩ | simp [Json.isObj] at hobj
      by_cases hbase : (pyOr (getField rkvs "image_url" Json.null)
          (getField rkvs "output_url" Json.null)).truthy = true
      · simp only [specTaskSummary, specTaskBaseLines, specTrailingLine, specAudioUrl,
          specVideoUrl, specImageUrl, specFirstItem, hi, hfirst, hbase, if_true,
          exBind_ok, exPure]
        split_ifs <;> simp_all [List.append_assoc, Json.truthy, exBind_ok, exPure]
      · simp only [specTaskSummary, specTaskBaseLines, specTrailingLine, specAudioUrl,
          specVideoUrl, specImageUrl, specFirstItem, hi, hfirst, hbase, if_false,
          exBind_ok, exPure]
        split_ifs <;> simp_all [List.append_assoc, Json.truthy, exBind_ok, exPure]
  all_goals
    by_cases hbase : (pyOr (getField rkvs "image_url" Json.null)
        (getField rkvs "output_url" Json.null)).truthy = true
  all_goals
    simp only [specTaskSummary, specTaskBaseLines, specTrailingLine, specAudioUrl,
      specVideoUrl, specImageUrl, specFirstItem, hi, hbase, if_true, if_false]
  all_goals split_ifs <;> simp_all [List.append_assoc, Json.truthy, exBind_ok, exPure]

/-- C5 (amended): every successful get_task fetch formats the summary lines
(task id, type, status, estimated cost, actual cost when a real value is
present) followed by at most one trailing line chosen by status: the
output-URL line when status is completed and an audio/video/image URL is
available (preferring audio, then video, then image), the error line when
status is failed and an error message is present, the still-working notice
for pending/queued/executing, and no trailing line otherwise — in
particular a completed task with no available URL gets no URL line. -/
theorem c5_get_task_summary :
    ∀ (env : Env) (akvs : List (String × Json)) (tid : Json)
      (bkvs rkvs : List (String × Json)),
      lookupField akvs "task_id" = some tid →
      tid.truthy = true →
      env (RemoteCall.getV3 ("/v3/tasks/" ++ pyStr tid)) = Except.ok (Json.obj bkvs) →
      lookupField bkvs "error" = none →
      (if (getField bkvs "result" (Json.obj [])).truthy then getField bkvs "result" (Json.obj [])
       else Json.obj []) = Json.obj rkvs →
      (∀ x, specFirstItem rkvs = some x → x.isObj = true) →
      handle_get_task env (Json.obj akvs)
        = Except.ok (textResult (specTaskSummary tid bkvs rkvs),
            [RemoteCall.getV3 ("/v3/tasks/" ++ pyStr tid)]) :=
  fun env akvs tid bkvs rkvs h1 h2 h3 h4 h5 h6 =>
    getTask_formats env akvs tid bkvs rkvs h1 h2 h3 h4 h5 h6

/-- C5 witness: the spec's music example — a completed music task with
items[0].audio_url gets the audio-URL line and no video/image line. -/
theorem c5_witness :
    handle_get_task envMusic0 (Json.obj [("task_id", Json.str "m1")])
      = Except.ok (textResult (specTaskSummary (Json.str "m1")
          [("status", Json.str "completed"), ("type", Json.str "music"),
           ("result", Json.obj
              [("items", Json.arr [Json.obj [("audio_url", Json.str "https://x/a.mp3")]])])]
          [("items", Json.arr [Json.obj [("audio_url", Json.str "https://x/a.mp3")]])]),
          [RemoteCall.getV3 ("/v3/tasks/" ++ pyStr (Json.str "m1"))])
    ∧ strContains (specTaskSummary (Json.str "m1")
        [("status", Json.str "completed"), ("type", Json.str "music"),
         ("result", Json.obj
            [("items", Json.arr [Json.obj [("audio_url", Json.str "https://x/a.mp3")]])])]
        [("items", Json.arr [Json.obj [("audio_url", Json.str "https://x/a.mp3")]])])
        "Audio URL" = true
    ∧ strContains (specTaskSummary (Json.str "m1")
        [("status", Json.str "completed"), ("type", Json.str "music"),
         ("result", Json.obj
            [("items", Json.arr [Json.obj [("audio_url", Json.str "https://x/a.mp3")]])])]
        [("items", Json.arr [Json.obj [("audio_url", Json.str "https://x/a.mp3")]])])
        "Video URL" = false :=
  ⟨c5_get_task_summary envMusic0 [("task_id", Json.str "m1")] (Json.str "m1")
      [("status", Json.str "completed"), ("type", Json.str "music"),
       ("result", Json.obj
          [("items", Json.arr [Json.obj [("audio_url", Json.str "https://x/a.mp3")]])])]
      [("items", Json.arr [Json.obj [("audio_url", Json.str "https://x/a.mp3")]])]
      rfl rfl rfl rfl rfl
      (by
        intro x hx
        obtain rfl : Json.obj [("audio_url", Json.str "https://x/a.mp3")] = x :=
          Option.some.inj hx
        rfl),
   by decide, by decide⟩

/-- C5 counterexample: a completed task whose document has no result mapping
gets no trailing output-URL line at all, contradicting the claim that a
completed status always yields an output-URL trailing line. -/
theorem c5_counterexample :
    handle_get_task envTaskNoResult (Json.obj [("task_id", Json.str "t1")])
      = Except.ok (textResult "Task: t1\nType: video\nStatus: completed\nEstimated Cost: $N/A",
          [RemoteCall.getV3 "/v3/tasks/t1"])
    ∧ strContains "Task: t1\nType: video\nStatus: completed\nEstimated Cost: $N/A" "URL" = false :=
  ⟨rfl, by decide⟩

/-- C10: a successful get_task fetch whose task document lacks a result
member, or carries result null, is handled as if result were the empty
mapping: no exception, no URL extracted (all three spec extractors yield
null on the empty mapping), and the id/type/status/cost summary is still
returned. -/
theorem c10_null_result_safe :
    ∀ (env : Env) (tid : Json) (bkvs akvs : List (String × Json)),
      lookupField akvs "task_id" = some tid →
      tid.truthy = true →
      env (RemoteCall.getV3 ("/v3/tasks/" ++ pyStr tid)) = Except.ok (Json.obj bkvs) →
      lookupField bkvs "error" = none →
      (lookupField bkvs "result" = none ∨ lookupField bkvs "result" = some Json.null) →
      handle_get_task env (Json.obj akvs)
        = Except.ok (textResult (specTaskSummary tid bkvs []),
            [RemoteCall.getV3 ("/v3/tasks/" ++ pyStr tid)])
      ∧ specAudioUrl [] = Json.null ∧ specVideoUrl [] = Json.null
      ∧ specImageUrl [] = Json.null := by
  intro env tid bkvs akvs h1 h2 h3 h4 h5
  refine ⟨?_, rfl, rfl, rfl⟩
  apply getTask_formats env akvs tid bkvs [] h1 h2 h3 h4
  · rcases h5 with h5 | h5 <;> simp [getField, h5, Json.truthy]
  · intro x hx
    simp [specFirstItem, getField, lookupField] at hx

/-- C10 witness: a completed video task document without a result member. -/
theorem c10_witness :
    handle_get_task envTaskNoResult (Json.obj [("task_id", Json.str "t9")])
      = Except.ok (textResult (specTaskSummary (Json.str "t9")
          [("status", Json.str "completed"), ("type", Json.str "video")] []),
          [RemoteCall.getV3 ("/v3/tasks/" ++ pyStr (Json.str "t9"))])
    ∧ specAudioUrl [] = Json.null ∧ specVideoUrl [] = Json.null
    ∧ specImageUrl [] = Json.null :=
  c10_null_result_safe envTaskNoResult (Json.str "t9")
    [("status", Json.str "completed"), ("type", Json.str "video")]
    [("task_id", Json.str "t9")] rfl rfl rfl rfl (Or.inl rfl)

/-- The estimate_video_cost handler on a mapping argument always succeeds
with the canned text and an empty remote-call trace. -/
theorem estimate_ok (akvs : List (String × Json)) :
    handle_estimate_video_cost (Json.obj akvs)
      = Except.ok (textResult estimateFixedText, []) := by
  unfold handle_estimate_video_cost
  obtain ⟨v, hv⟩ := costLookup_coerce_ok
      (if (getField akvs "generate_audio" (Json.bool true)).truthy then video_costs_with_audio
       else video_costs_no_audio)
      (getField akvs "duration" (Json.num 8)) (Json.dec 48)
  simp [hv, exBind_ok, exPure]

/-- resultErrMsg never fires on an error-flagged tool result (its keys are
isError and content, not error). -/
theorem resultErrMsg_errorResult (s : String) :
    resultErrMsg (errorResult s) = Except.ok none := rfl

/-- resultErrMsg never fires on a plain text tool result. -/
theorem resultErrMsg_textResult (s : String) :
    resultErrMsg (textResult s) = Except.ok none := rfl

/-- generate_video with a truthy prompt and a failing remote call returns
the error-flagged result repeating the remote message, with exactly the one
V3 task-creation call in its trace. -/
theorem genVideo_remote_error (env : Env) (akvs : List (String × Json)) (m : String)
    (hp : (getField akvs "prompt" (Json.str "")).truthy = true)
    (hm : env (RemoteCall.postV3 "/v3/tasks"
        (Json.obj [("type", Json.str "video"), ("params", Json.obj (genVideoParams akvs))]))
      = Except.error m) :
    handle_generate_video env (Json.obj akvs)
      = Except.ok (errorResult ("Error: " ++ m),
          [RemoteCall.postV3 "/v3/tasks"
            (Json.obj [("type", Json.str "video"), ("params", Json.obj (genVideoParams akvs))])]) := by
  simp only [handle_generate_video, hp, Bool.not_true, Bool.false_eq_true, if_false,
    make_v3_request, hm]
  simp [Json.containsPy, Json.index, lookupField, exBind_ok, exPure, pyStr]

/-- get_task with a truthy task_id and a failing remote call returns the
error-flagged result repeating the remote message, with exactly the one V3
GET in its trace. -/
theorem getTask_remote_error (env : Env) (akvs : List (String × Json)) (m : String)
    (ht : (getField akvs "task_id" (Json.str "")).truthy = true)
    (hm : env (RemoteCall.getV3 ("/v3/tasks/" ++ pyStr (getField akvs "task_id" (Json.str ""))))
      = Except.error m) :
    handle_get_task env (Json.obj akvs)
      = Except.ok (errorResult ("Error: " ++ m),
          [RemoteCall.getV3 ("/v3/tasks/" ++ pyStr (getField akvs "task_id" (Json.str "")))]) := by
  simp only [handle_get_task, ht, Bool.not_true, Bool.false_eq_true, if_false,
    make_v3_get_request, hm]
  simp [Json.containsPy, Json.index, lookupField, exBind_ok, exPure, pyStr]

/-- Dispatch of a tools/call request with non-null id: straight to
handlerTry with the tools/call handler. -/
theorem process_toolsCall (env : Env) (idv : Json) (name : String)
    (akvs : List (String × Json)) (hnull : idv.isNull = false) :
    process_request env (toolsCallReq idv name akvs)
      = Except.ok (some (handlerTry env MethodName.toolsCall
          (Json.obj [("name", Json.str name), ("arguments", Json.obj akvs)]) idv)) := by
  have hid : getField [("id", idv), ("method", Json.str "tools/call"),
      ("params", Json.obj [("name", Json.str name), ("arguments", Json.obj akvs)])]
      "id" Json.null = idv := rfl
  have hme : getField [("id", idv), ("method", Json.str "tools/call"),
      ("params", Json.obj [("name", Json.str name), ("arguments", Json.obj akvs)])]
      "method" (Json.str "") = Json.str "tools/call" := rfl
  have hpa : getField [("id", idv), ("method", Json.str "tools/call"),
      ("params", Json.obj [("name", Json.str name), ("arguments", Json.obj akvs)])]
      "params" Json.null
      = Json.obj [("name", Json.str name), ("arguments", Json.obj akvs)] := rfl
  simp only [process_request, toolsCallReq, hid, hme, hpa, hnull, Bool.false_eq_true,
    if_false]
  rfl

/-- tools/call handler dispatch for a name that is none of the three special
tools: verbatim forward to the generic endpoint. -/
theorem toolsCall_generic (env : Env) (akvs : List (String × Json)) (name : String)
    (h1 : name ≠ "generate_video") (h2 : name ≠ "estimate_video_cost")
    (h3 : name ≠ "get_task") :
    handle_tools_call env (Json.obj [("name", Json.str name), ("arguments", Json.obj akvs)])
      = Except.ok (make_request env "/tools/call"
          (Json.obj [("name", Json.str name), ("arguments", Json.obj akvs)])) := by
  have e1 : (Json.str name).eqStr "generate_video" = false := by
    simp [Json.eqStr, h1]
  have e2 : (Json.str name).eqStr "estimate_video_cost" = false := by
    simp [Json.eqStr, h2]
  have e3 : (Json.str name).eqStr "get_task" = false := by
    simp [Json.eqStr, h3]
  simp only [handle_tools_call]
  simp only [show getField [("name", Json.str name), ("arguments", Json.obj akvs)] "name"
      (Json.str "") = Json.str name from rfl,
    show getField [("name", Json.str name), ("arguments", Json.obj akvs)] "arguments"
      (Json.obj []) = Json.obj akvs from rfl,
    e1, e2, e3, Bool.false_eq_true, if_false]

/-- C1 (amended): when every remote HTTP call fails, a tools/call request
for any of the three special-cased tools still gets a successful JSON-RPC
response whose result payload is error-flagged with human-readable text
(estimate_video_cost performs no remote call at all and succeeds); a
generically forwarded tool instead gets a JSON-RPC error envelope with code
-32000 carrying the remote error message. -/
theorem c1_tool_error_channel :
    ∀ (env : Env) (idv : Json) (akvs : List (String × Json)),
      (∀ c, ∃ m, env c = Except.error m) →
      idv.isNull = false →
      (((getField akvs "prompt" (Json.str "")).truthy = true →
          ∃ m calls,
            process_request env (toolsCallReq idv "generate_video" akvs)
              = Except.ok (some (create_response idv (errorResult ("Error: " ++ m)), calls)))
        ∧ process_request env (toolsCallReq idv "estimate_video_cost" akvs)
            = Except.ok (some (create_response idv (textResult estimateFixedText), []))
        ∧ ((getField akvs "task_id" (Json.str "")).truthy = true →
            ∃ m calls,
              process_request env (toolsCallReq idv "get_task" akvs)
                = Except.ok (some (create_response idv (errorResult ("Error: " ++ m)), calls)))
        ∧ (∀ name : String, name ≠ "generate_video" → name ≠ "estimate_video_cost" →
             name ≠ "get_task" →
             ∃ m calls,
               process_request env (toolsCallReq idv name akvs)
                 = Except.ok (some (create_error idv (-32000) m, calls)))
        ∧ (∀ s, (errorResult s).hasKeyB "isError" = true)) := by
  intro env idv akvs hfail hnull
  refine ⟨?_, ?_, ?_, ?_, fun s => rfl⟩
  · intro hp
    obtain ⟨m, hm⟩ := hfail (RemoteCall.postV3 "/v3/tasks"
      (Json.obj [("type", Json.str "video"), ("params", Json.obj (genVideoParams akvs))]))
    refine ⟨m, [RemoteCall.postV3 "/v3/tasks"
      (Json.obj [("type", Json.str "video"), ("params", Json.obj (genVideoParams akvs))])], ?_⟩
    rw [process_toolsCall env idv "generate_video" akvs hnull]
    have hrun : runHandler env MethodName.toolsCall
        (Json.obj [("name", Json.str "generate_video"), ("arguments", Json.obj akvs)])
        = Except.ok (errorResult ("Error: " ++ m),
            [RemoteCall.postV3 "/v3/tasks"
              (Json.obj [("type", Json.str "video"), ("params", Json.obj (genVideoParams akvs))])]) := by
      simp only [runHandler, handle_tools_call]
      simp only [show getField [("name", Json.str "generate_video"), ("arguments", Json.obj akvs)]
          "name" (Json.str "") = Json.str "generate_video" from rfl,
        show getField [("name", Json.str "generate_video"), ("arguments", Json.obj akvs)]
          "arguments" (Json.obj []) = Json.obj akvs from rfl,
        show (Json.str "generate_video").eqStr "generate_video" = true from rfl, if_true]
      exact genVideo_remote_error env akvs m hp hm
    simp only [handlerTry, hrun, resultErrMsg_errorResult]
  · rw [process_toolsCall env idv "estimate_video_cost" akvs hnull]
    have hrun : runHandler env MethodName.toolsCall
        (Json.obj [("name", Json.str "estimate_video_cost"), ("arguments", Json.obj akvs)])
        = Except.ok (textResult estimateFixedText, []) := by
      simp only [runHandler, handle_tools_call]
      simp only [show getField [("name", Json.str "estimate_video_cost"), ("arguments", Json.obj akvs)]
          "name" (Json.str "") = Json.str "estimate_video_cost" from rfl,
        show getField [("name", Json.str "estimate_video_cost"), ("arguments", Json.obj akvs)]
          "arguments" (Json.obj []) = Json.obj akvs from rfl,
        show (Json.str "estimate_video_cost").eqStr "generate_video" = false from rfl,
        show (Json.str "estimate_video_cost").eqStr "estimate_video_cost" = true from rfl,
        Bool.false_eq_true, if_false, if_true]
      exact estimate_ok akvs
    simp only [handlerTry, hrun, resultErrMsg_textResult]
  · intro ht
    obtain ⟨m, hm⟩ := hfail (RemoteCall.getV3
      ("/v3/tasks/" ++ pyStr (getField akvs "task_id" (Json.str ""))))
    refine ⟨m, [RemoteCall.getV3
      ("/v3/tasks/" ++ pyStr (getField akvs "task_id" (Json.str "")))], ?_⟩
    rw [process_toolsCall env idv "get_task" akvs hnull]
    have hrun : runHandler env MethodName.toolsCall
        (Json.obj [("name", Json.str "get_task"), ("arguments", Json.obj akvs)])
        = Except.ok (errorResult ("Error: " ++ m),
            [RemoteCall.getV3 ("/v3/tasks/" ++ pyStr (getField akvs "task_id" (Json.str "")))]) := by
      simp only [runHandler, handle_tools_call]
      simp only [show getField [("name", Json.str "get_task"), ("arguments", Json.obj akvs)]
          "name" (Json.str "") = Json.str "get_task" from rfl,
        show getField [("name", Json.str "get_task"), ("arguments", Json.obj akvs)]
          "arguments" (Json.obj []) = Json.obj akvs from rfl,
        show (Json.str "get_task").eqStr "generate_video" = false from rfl,
        show (Json.str "get_task").eqStr "estimate_video_cost" = false from rfl,
        show (Json.str "get_task").eqStr "get_task" = true from rfl,
        Bool.false_eq_true, if_false, if_true]
      exact getTask_remote_error env akvs m ht hm
    simp only [handlerTry, hrun, resultErrMsg_errorResult]
  · intro name h1 h2 h3
    obtain ⟨m, hm⟩ := hfail (RemoteCall.postMcp "/tools/call"
      (Json.obj [("name", Json.str name), ("arguments", Json.obj akvs)]))
    refine ⟨m, [RemoteCall.postMcp "/tools/call"
      (Json.obj [("name", Json.str name), ("arguments", Json.obj akvs)])], ?_⟩
    rw [process_toolsCall env idv name akvs hnull]
    have hrun : runHandler env MethodName.toolsCall
        (Json.obj [("name", Json.str name), ("arguments", Json.obj akvs)])
        = Except.ok (Json.obj [("error", Json.str m)],
            [RemoteCall.postMcp "/tools/call"
              (Json.obj [("name", Json.str name), ("arguments", Json.obj akvs)])]) := by
      simp only [runHandler]
      rw [toolsCall_generic env akvs name h1 h2 h3]
      simp [make_request, hm]
    simp only [handlerTry, hrun,
      show resultErrMsg (Json.obj [("error", Json.str m)]) = Except.ok (some m) from rfl]

/-- C1 witness: every branch of the amended claim at a failing environment,
id 1 and arguments carrying a prompt and a task_id. -/
theorem c1_witness :
    ((getField [("prompt", Json.str "p"), ("task_id", Json.str "t")] "prompt"
        (Json.str "")).truthy = true →
      ∃ m calls,
        process_request envFail0 (toolsCallReq (Json.num 1) "generate_video"
            [("prompt", Json.str "p"), ("task_id", Json.str "t")])
          = Except.ok (some (create_response (Json.num 1)
              (errorResult ("Error: " ++ m)), calls))) ∧
    process_request envFail0 (toolsCallReq (Json.num 1) "estimate_video_cost"
        [("prompt", Json.str "p"), ("task_id", Json.str "t")])
      = Except.ok (some (create_response (Json.num 1) (textResult estimateFixedText), [])) ∧
    ((getField [("prompt", Json.str "p"), ("task_id", Json.str "t")] "task_id"
        (Json.str "")).truthy = true →
      ∃ m calls,
        process_request envFail0 (toolsCallReq (Json.num 1) "get_task"
            [("prompt", Json.str "p"), ("task_id", Json.str "t")])
          = Except.ok (some (create_response (Json.num 1)
              (errorResult ("Error: " ++ m)), calls))) ∧
    (∀ name : String, name ≠ "generate_video" → name ≠ "estimate_video_cost" →
      name ≠ "get_task" →
      ∃ m calls,
        process_request envFail0 (toolsCallReq (Json.num 1) name
            [("prompt", Json.str "p"), ("task_id", Json.str "t")])
          = Except.ok (some (create_error (Json.num 1) (-32000) m, calls))) ∧
    (∀ s, (errorResult s).hasKeyB "isError" = true) :=
  c1_tool_error_channel envFail0 (Json.num 1)
    [("prompt", Json.str "p"), ("task_id", Json.str "t")]
    (fun _c => ⟨"HTTP 502", rfl⟩) rfl

/-- A remote API that answers every call with a created-task document. -/
def envVideoOk : Env := fun _ =>
  Except.ok (Json.obj [("task_id", Json.str "abc"), ("estimated_cost", Json.dec 48)])

/-- C3: generate_video and estimate_video_cost silently coerce their
parameters — duration outside \x7b4, 6, 8\x7d becomes 8, aspect_ratio
outside \x7b"16:9", "9:16"\x7d becomes "16:9", resolution outside
\x7b"720p", "1080p"\x7d becomes "720p", allowed values pass through — and
the coerced values are what generate_video sends downstream in the V3 task
payload and shows in its result text, with no error surfaced. -/
theorem c3_silent_coercion :
    (∀ d : Json, ((d.eqNum 4 || d.eqNum 6 || d.eqNum 8) = true → coerceDuration d = d)
       ∧ ((d.eqNum 4 || d.eqNum 6 || d.eqNum 8) = false → coerceDuration d = Json.num 8))
    ∧ (∀ a : Json, ((a.eqStr "16:9" || a.eqStr "9:16") = true → coerceAspect a = a)
       ∧ ((a.eqStr "16:9" || a.eqStr "9:16") = false → coerceAspect a = Json.str "16:9"))
    ∧ (∀ r : Json, ((r.eqStr "720p" || r.eqStr "1080p") = true → coerceRes r = r)
       ∧ ((r.eqStr "720p" || r.eqStr "1080p") = false → coerceRes r = Json.str "720p"))
    ∧ (∀ akvs : List (String × Json),
         lookupField (genVideoParams akvs) "duration"
           = some (coerceDuration (getField akvs "duration" (Json.num 8)))
         ∧ lookupField (genVideoParams akvs) "aspect_ratio"
           = some (coerceAspect (getField akvs "aspect_ratio" (Json.str "16:9")))
         ∧ lookupField (genVideoParams akvs) "resolution"
           = some (coerceRes (getField akvs "resolution" (Json.str "720p"))))
    ∧ (∀ (env : Env) (akvs bkvs : List (String × Json)),
         (getField akvs "prompt" (Json.str "")).truthy = true →
         env (RemoteCall.postV3 "/v3/tasks"
             (Json.obj [("type", Json.str "video"), ("params", Json.obj (genVideoParams akvs))]))
           = Except.ok (Json.obj bkvs) →
         lookupField bkvs "error" = none →
         ∃ est,
           handle_generate_video env (Json.obj akvs)
             = Except.ok (textResult
                 ("Video generation task created (Veo 3.1)!\n\nTask ID: "
                   ++ pyStr (getField bkvs "task_id" (Json.str "unknown"))
                   ++ "\nDuration: "
                   ++ pyStr (coerceDuration (getField akvs "duration" (Json.num 8)))
                   ++ " seconds\nAspect Ratio: "
                   ++ pyStr (coerceAspect (getField akvs "aspect_ratio" (Json.str "16:9")))
                   ++ "\nResolution: "
                   ++ pyStr (coerceRes (getField akvs "resolution" (Json.str "720p")))
                   ++ "\nAudio: "
                   ++ (if (getField akvs "generate_audio" (Json.bool true)).truthy
                       then "Yes" else "No")
                   ++ "\nEstimated Cost: $" ++ pyStr est
                   ++ "\n\nUse get_task with this task_id to check status and get the video URL when complete."),
                 [RemoteCall.postV3 "/v3/tasks"
                   (Json.obj [("type", Json.str "video"), ("params", Json.obj (genVideoParams akvs))])]))
    ∧ (∀ s, (textResult s).hasKeyB "isError" = false) := by
  refine ⟨?_, ?_, ?_, ?_, ?_, fun s => rfl⟩
  · intro d
    constructor <;> intro h <;> simp [coerceDuration, h]
  · intro a
    constructor <;> intro h <;> simp [coerceAspect, h]
  · intro r
    constructor <;> intro h <;> simp [coerceRes, h]
  · intro akvs
    by_cases hneg : (getField akvs "negative_prompt" (Json.str "")).truthy = true <;>
      simp [genVideoParams, hneg, lookupField]
  · intro env akvs bkvs hp henv herr
    obtain ⟨v, hv⟩ := costLookup_coerce_ok
        (if (getField akvs "generate_audio" (Json.bool true)).truthy then video_costs_with_audio
         else video_costs_no_audio)
        (getField akvs "duration" (Json.num 8)) (Json.dec 48)
    refine ⟨getField bkvs "estimated_cost" v, ?_⟩
    simp only [handle_generate_video, hp, Bool.not_true, Bool.false_eq_true, if_false,
      make_v3_request, henv]
    simp [Json.containsPy, herr, Json.pGet, hv, exBind_ok, exPure]

/-- C3 witness: a call with duration 99 is sent downstream and shown with
duration 8 and default aspect/resolution. -/
theorem c3_witness :
    ∃ est,
      handle_generate_video envVideoOk
          (Json.obj [("prompt", Json.str "cat"), ("duration", Json.num 99)])
        = Except.ok (textResult
            ("Video generation task created (Veo 3.1)!\n\nTask ID: "
              ++ pyStr (getField [("task_id", Json.str "abc"), ("estimated_cost", Json.dec 48)]
                   "task_id" (Json.str "unknown"))
              ++ "\nDuration: "
              ++ pyStr (coerceDuration (getField
                   [("prompt", Json.str "cat"), ("duration", Json.num 99)] "duration" (Json.num 8)))
              ++ " seconds\nAspect Ratio: "
              ++ pyStr (coerceAspect (getField
                   [("prompt", Json.str "cat"), ("duration", Json.num 99)] "aspect_ratio"
                   (Json.str "16:9")))
              ++ "\nResolution: "
              ++ pyStr (coerceRes (getField
                   [("prompt", Json.str "cat"), ("duration", Json.num 99)] "resolution"
                   (Json.str "720p")))
              ++ "\nAudio: "
              ++ (if (getField [("prompt", Json.str "cat"), ("duration", Json.num 99)]
                     "generate_audio" (Json.bool true)).truthy then "Yes" else "No")
              ++ "\nEstimated Cost: $" ++ pyStr est
              ++ "\n\nUse get_task with this task_id to check status and get the video URL when complete."),
            [RemoteCall.postV3 "/v3/tasks"
              (Json.obj [("type", Json.str "video"),
                ("params", Json.obj (genVideoParams
                  [("prompt", Json.str "cat"), ("duration", Json.num 99)]))])]) :=
  c3_silent_coercion.2.2.2.2.1 envVideoOk
    [("prompt", Json.str "cat"), ("duration", Json.num 99)]
    [("task_id", Json.str "abc"), ("estimated_cost", Json.dec 48)] rfl rfl rfl
